import Mathlib

/-!
# NodeUsb endpoint: a shallow embedding of `src/endpoint.cc`

The file embeds the class `NodeUsb::Endpoint` (constructor, `New`, the two
classification getters, `GetExtraData` and `Transfer`) as pure Lean functions
with explicit state passing, and proves properties of those functions.

Conventions.
* C unsigned integers are natural numbers; widening one (a byte read into a
  `uint32_t`, a field passed to `Uint32::New`) keeps its value.
* C enumerations are their numeric values (`libusb_endpoint_direction`,
  `libusb_transfer_type`), as in libusb.h.
* C arrays of the configuration descriptor tree are lists; a read past the end
  of an array is the explicit outcome `Completion.invalidRead`.
* A V8 call either returns a value, returns after `ThrowException`, or runs
  into an invalid read.
-/

set_option linter.dupNamespace false

namespace NodeUsb

/-! ## libusb constants and descriptors (libusb.h) -/

/-- Value of `LIBUSB_ENDPOINT_IN` in `enum libusb_endpoint_direction`. -/
def LIBUSB_ENDPOINT_IN : Nat := 0x80

/-- Value of `LIBUSB_ENDPOINT_OUT` in `enum libusb_endpoint_direction`. -/
def LIBUSB_ENDPOINT_OUT : Nat := 0x00

/-- Value of `LIBUSB_TRANSFER_TYPE_CONTROL` in `enum libusb_transfer_type`. -/
def LIBUSB_TRANSFER_TYPE_CONTROL : Nat := 0

/-- Value of `LIBUSB_TRANSFER_TYPE_ISOCHRONOUS` in `enum libusb_transfer_type`. -/
def LIBUSB_TRANSFER_TYPE_ISOCHRONOUS : Nat := 1

/-- Value of `LIBUSB_TRANSFER_TYPE_BULK` in `enum libusb_transfer_type`. -/
def LIBUSB_TRANSFER_TYPE_BULK : Nat := 2

/-- Value of `LIBUSB_TRANSFER_TYPE_INTERRUPT` in `enum libusb_transfer_type`. -/
def LIBUSB_TRANSFER_TYPE_INTERRUPT : Nat := 3

/-- Value of `LIBUSB_SUCCESS` in `enum libusb_error`. -/
def LIBUSB_SUCCESS : Int := 0

/-- The struct `libusb_endpoint_descriptor`: eight scalar fields, the pointer
`extra` to the trailing bytes (the bytes readable through it, in order) and
`extra_length`. -/
structure libusb_endpoint_descriptor where
  bLength : Nat
  bDescriptorType : Nat
  bEndpointAddress : Nat
  bmAttributes : Nat
  wMaxPacketSize : Nat
  bInterval : Nat
  bRefresh : Nat
  bSynchAddress : Nat
  extra : List Nat
  extra_length : Nat
  deriving DecidableEq, Repr

/-- The struct `libusb_interface_descriptor`, reduced to its array `endpoint`
(of `bNumEndpoints` entries). -/
structure libusb_interface_descriptor where
  endpoint : List libusb_endpoint_descriptor
  deriving DecidableEq, Repr

/-- The struct `libusb_interface`: the array `altsetting` (of
`num_altsetting` entries). -/
structure libusb_interface where
  altsetting : List libusb_interface_descriptor
  deriving DecidableEq, Repr

/-- The struct `libusb_config_descriptor`, reduced to its array `interface`
(of `bNumInterfaces` entries). -/
structure libusb_config_descriptor where
  interface : List libusb_interface
  deriving DecidableEq, Repr

/-! ## Collaborators declared outside `endpoint.cc` -/

/-- Modelled from the spec: the class `Device` (device.h is absent). The spec
gives it a cached configuration-descriptor tree and a session that is open or
not; `libusb_open_result` is what the transport answers when an open is
attempted (`LIBUSB_SUCCESS` or a negative libusb error code). -/
structure Device where
  config_descriptor : libusb_config_descriptor
  handle : Bool
  libusb_open_result : Int
  deriving DecidableEq, Repr

/-- Modelled from the spec: `Device::openHandle` (device.cc is absent), the
idempotent session open of spec section 6: an open session is kept and
reported as success; otherwise an open is attempted, and the session is open
afterwards exactly when the transport did not answer an error. -/
def Device.openHandle (d : Device) : Int × Device :=
  if d.handle then (LIBUSB_SUCCESS, d)
  else if d.libusb_open_result < LIBUSB_SUCCESS then (d.libusb_open_result, d)
  else (LIBUSB_SUCCESS, { d with handle := true })

/-- The object behind `NodeUsb::Endpoint` (endpoint.h is absent; the members
are those the constructor assigns). The persistent handle `v8device` keeps the
script wrapper of `device` alive and carries no data of its own. -/
structure Endpoint where
  device : Device
  descriptor : libusb_endpoint_descriptor
  endpoint_type : Nat
  transfer_type : Nat
  idx_endpoint : Nat
  deriving DecidableEq, Repr

/-- The constructor `Endpoint::Endpoint` (endpoint.cc lines 9-18). -/
def Endpoint.Endpoint (_device : Device)
    (_endpoint_descriptor : libusb_endpoint_descriptor) (_idx_endpoint : Nat) : Endpoint :=
  { device := _device
    descriptor := _endpoint_descriptor
    endpoint_type :=
      if _endpoint_descriptor.bEndpointAddress &&& (1 <<< 7) ≠ 0 then LIBUSB_ENDPOINT_IN
      else LIBUSB_ENDPOINT_OUT
    transfer_type := 3 &&& _endpoint_descriptor.bmAttributes
    idx_endpoint := _idx_endpoint }

/-! ## V8 values, exceptions and the binding macros -/

/-- The script values the functions of this file distinguish. `number n` is a
number whose value is the non-negative integer `n`; `other` stands for every
value that is neither an object nor such a number (null, a string, a negative
or fractional number). A `Buffer` instance and a function are objects too;
`object w` is any further object, `w` being the `Device` it wraps, if any. -/
inductive Value where
  | undefined
  | number (n : Nat)
  | other
  | buffer (data : List Nat)
  | function (id : Nat)
  | object (wrapped : Option Device)
  deriving DecidableEq, Repr

/-- The test `Value::IsObject`. -/
def Value.IsObject : Value → Bool
  | .buffer _ => true
  | .function _ => true
  | .object _ => true
  | _ => false

/-- The test `Value::IsUint32`: a non-negative integer below 2^32. -/
def Value.IsUint32 : Value → Bool
  | .number n => decide (n < 2 ^ 32)
  | _ => false

/-- The test `Value::IsFunction`. -/
def Value.IsFunction : Value → Bool
  | .function _ => true
  | _ => false

/-- The conversion `Value::Uint32Value` on numbers (used here only after
`IsUint32` held); 0 stands in for the conversion of the other values. -/
def Value.Uint32Value : Value → Nat
  | .number n => n % 2 ^ 32
  | _ => 0

/-- The test `Buffer::HasInstance`. -/
def Value.HasInstance : Value → Bool
  | .buffer _ => true
  | _ => false

/-- The call `ObjectWrap::Unwrap<Device>`: the wrapped device; `none` when the
value wraps no `Device`, where the C++ cast hands back memory that holds none. -/
def Value.Unwrap : Value → Option Device
  | .object w => w
  | _ => none

/-- The constructors `Uint32::New` and `Integer::New` on a non-negative value. -/
def Uint32_New (n : Nat) : Value := Value.number n

/-- Element `args[i]` of a V8 argument list: `undefined` past its length. -/
def argAt (args : List Value) (i : Nat) : Value := args.getD i Value.undefined

/-- The exceptions the file throws: `TypeError` by `THROW_BAD_ARGS`,
`UsbError r` by `CHECK_USB` on the libusb result `r`. -/
inductive Exception where
  | TypeError
  | UsbError (r : Int)
  deriving DecidableEq, Repr

/-- The three error kinds of spec section 7. -/
inductive ErrorKind where
  | IndexOutOfRange
  | InvalidArgument
  | DeviceError
  deriving DecidableEq, Repr

/-- Modelled from the spec: the exception behind each spec error kind (the
macros `THROW_BAD_ARGS` and `CHECK_USB` of bindings.h are absent):
`InvalidArgument` is the malformed-call error, `DeviceError` wraps the
transport error code. -/
def Exception.kind : Exception → ErrorKind
  | .TypeError => ErrorKind.InvalidArgument
  | .UsbError _ => ErrorKind.DeviceError

/-- How a call ends: it returns a value, it returns after throwing, or it
reads outside the object or array it was given (undefined in C++). -/
inductive Completion (α : Type) where
  | returned (v : α)
  | thrown (e : Exception)
  | invalidRead
  deriving DecidableEq, Repr

/-- The error kind a call failed with, if it threw. -/
def Completion.failure {α : Type} : Completion α → Option ErrorKind
  | .thrown e => some e.kind
  | _ => none

/-! ## `Endpoint::New` and the getters -/

/-- The script object `args.This()` after `Endpoint::New`: the nine properties
set through `LIBUSB_ENDPOINT_DESCRIPTOR_STRUCT_TO_V8` and the wrapped
`Endpoint`. -/
structure EndpointObject where
  bLength : Value
  bDescriptorType : Value
  bEndpointAddress : Value
  bmAttributes : Value
  wMaxPacketSize : Value
  bInterval : Value
  bRefresh : Value
  bSynchAddress : Value
  extra_length : Value
  wrapped : Endpoint
  deriving DecidableEq, Repr

/-- The expression
`&((dev->config_descriptor->interface[i]).altsetting[j]).endpoint[k]` followed
by the reads through it: the descriptor, or `none` when one of the three
subscripts is outside its array. -/
def endpointAt (c : libusb_config_descriptor) (i j k : Nat) :
    Option libusb_endpoint_descriptor :=
  match c.interface[i]? with
  | none => none
  | some itf =>
    match itf.altsetting[j]? with
    | none => none
    | some alt => alt.endpoint[k]?

/-- The function `Endpoint::New` (endpoint.cc lines 56-93). -/
def Endpoint.New (args : List Value) : Completion EndpointObject :=
  if args.length ≠ 4 ∨ !(argAt args 0).IsObject ∨ !(argAt args 1).IsUint32 ∨
      !(argAt args 2).IsUint32 ∨ !(argAt args 3).IsUint32 then
    Completion.thrown Exception.TypeError
  else
    match (argAt args 0).Unwrap with
    | none => Completion.invalidRead
    | some dev =>
      let idxInterface := (argAt args 1).Uint32Value
      let idxAltSetting := (argAt args 2).Uint32Value
      let idxEndpoint := (argAt args 3).Uint32Value
      match endpointAt dev.config_descriptor idxInterface idxAltSetting idxEndpoint with
      | none => Completion.invalidRead
      | some libusbEndpointDescriptor =>
        let endpoint := Endpoint.Endpoint dev libusbEndpointDescriptor idxEndpoint
        Completion.returned
          { bLength := Uint32_New endpoint.descriptor.bLength
            bDescriptorType := Uint32_New endpoint.descriptor.bDescriptorType
            bEndpointAddress := Uint32_New endpoint.descriptor.bEndpointAddress
            bmAttributes := Uint32_New endpoint.descriptor.bmAttributes
            wMaxPacketSize := Uint32_New endpoint.descriptor.wMaxPacketSize
            bInterval := Uint32_New endpoint.descriptor.bInterval
            bRefresh := Uint32_New endpoint.descriptor.bRefresh
            bSynchAddress := Uint32_New endpoint.descriptor.bSynchAddress
            extra_length := Uint32_New endpoint.descriptor.extra_length
            wrapped := endpoint }

/-- The getter `Endpoint::EndpointTypeGetter` (endpoint.cc lines 95-99). -/
def Endpoint.EndpointTypeGetter (self : NodeUsb.Endpoint) : Value := Uint32_New self.endpoint_type

/-- The getter `Endpoint::TransferTypeGetter` (endpoint.cc lines 101-105). -/
def Endpoint.TransferTypeGetter (self : NodeUsb.Endpoint) : Value := Uint32_New self.transfer_type

/-! ## `Endpoint::GetExtraData` -/

/-- The constructor `Array::New(m)`: `m` slots, all `undefined`. -/
def Array_New (m : Nat) : List Value := List.replicate m Value.undefined

/-- The loop `for (int i = 0; i < m; i++) r->Set(i, Uint32::New(extra[i]))`
of `GetExtraData`, from counter `i` on; a read of `extra[i]` past the bytes
behind `extra` is an invalid read. -/
def Endpoint.GetExtraData.loop (extra : List Nat) (m i : Nat) (r : List Value) :
    Completion (List Value) :=
  if i < m then
    match extra[i]? with
    | none => Completion.invalidRead
    | some c => Endpoint.GetExtraData.loop extra m (i + 1) (r.set i (Uint32_New c))
  else Completion.returned r
termination_by m - i

/-- The function `Endpoint::GetExtraData` (endpoint.cc lines 125-139). -/
def Endpoint.GetExtraData (self : NodeUsb.Endpoint) : Completion (List Value) :=
  let m := self.descriptor.extra_length
  let r := Array_New m
  Endpoint.GetExtraData.loop self.descriptor.extra m 0 r

/-! ## `Endpoint::Transfer` -/

/-- The memory `buf` points to in `Endpoint::Transfer`: the bytes of the
caller's `Buffer` (a source), or a fresh array of the requested number of
bytes (a destination). -/
inductive TransferBuffer where
  | source (data : List Nat)
  | destination (length : Nat)
  deriving DecidableEq, Repr

/-- The variables `BUF_LEN_ARG` leaves behind: `modus`, `buf` and `length`. -/
structure BufLen where
  modus : Nat
  buf : TransferBuffer
  length : Nat
  deriving DecidableEq, Repr

/-- Modelled from the spec: the macro `BUF_LEN_ARG` (bindings.h is absent).
The caller's buffer role implies the direction: a source buffer means OUT, with
the buffer's bytes and length; a requested byte count means IN, with a fresh
destination of that length; anything else is a malformed call. -/
def BUF_LEN_ARG (arg : Value) : Except Exception BufLen :=
  match arg with
  | .buffer data =>
    Except.ok { modus := LIBUSB_ENDPOINT_OUT, buf := TransferBuffer.source data,
                length := data.length }
  | .number n =>
    if (Value.number n).IsUint32 then
      Except.ok { modus := LIBUSB_ENDPOINT_IN, buf := TransferBuffer.destination n, length := n }
    else Except.error Exception.TypeError
  | _ => Except.error Exception.TypeError

/-- Modelled from the spec: the macro `INT_ARG` (bindings.h is absent): the
timeout is a non-negative integer; anything else is a malformed call. -/
def INT_ARG (val : Value) : Except Exception Nat :=
  if val.IsUint32 then Except.ok val.Uint32Value else Except.error Exception.TypeError

/-- Modelled from the spec: the macro `CHECK_USB` (bindings.h is absent): a
libusb result below `LIBUSB_SUCCESS` is thrown as the device error that wraps
it; `none` lets the function go on. -/
def CHECK_USB (r : Int) : Option Exception :=
  if r < LIBUSB_SUCCESS then some (Exception.UsbError r) else none

/-- The arguments `Endpoint::Transfer` passes to `Transfer::newTransfer`, which
make up the request: transfer type, endpoint address, `buf`, `length`,
`timeout` and the callback. (The second argument, `args.This()`, is the handle
of the calling endpoint object itself.) -/
structure Transfer where
  transfer_type : Nat
  bEndpointAddress : Nat
  buf : TransferBuffer
  length : Nat
  timeout : Nat
  callback : Value
  deriving DecidableEq, Repr

/-- The calls made on the class `Transfer` (transfer.cc is absent), oldest
first: the requests constructed by `Transfer::newTransfer` and the requests on
which `submit` was called. -/
structure TransferEngine where
  constructed : List NodeUsb.Transfer
  submitted : List NodeUsb.Transfer
  deriving DecidableEq, Repr

/-- The call `Transfer::newTransfer`: the request made of its arguments, and
the record that it was constructed. -/
def Transfer.newTransfer (transfer_type bEndpointAddress : Nat) (buf : TransferBuffer)
    (length timeout : Nat) (callback : Value) (e : TransferEngine) :
    NodeUsb.Transfer × TransferEngine :=
  let t : NodeUsb.Transfer :=
    { transfer_type := transfer_type, bEndpointAddress := bEndpointAddress, buf := buf,
      length := length, timeout := timeout, callback := callback }
  (t, { e with constructed := e.constructed ++ [t] })

/-- The call `t->submit()`: the record that `t` was handed to the engine. -/
def Transfer.submit (t : NodeUsb.Transfer) (e : TransferEngine) : TransferEngine :=
  { e with submitted := e.submitted ++ [t] }

/-- What a call of `Endpoint::Transfer` leaves: how it ended, the endpoint
(whose device may have been opened) and the engine. -/
structure TransferCall where
  completion : Completion Value
  self : NodeUsb.Endpoint
  engine : TransferEngine
  deriving DecidableEq, Repr

/-- The function `Endpoint::Transfer` (endpoint.cc lines 141-175). -/
def Endpoint.Transfer (self : NodeUsb.Endpoint) (args : List Value) (e : TransferEngine) :
    TransferCall :=
  let opened := self.device.openHandle
  let self := { self with device := opened.2 }
  match CHECK_USB opened.1 with
  | some ex => { completion := Completion.thrown ex, self := self, engine := e }
  | none =>
    if args.length < 3 ∨ !(argAt args 2).IsFunction then
      { completion := Completion.thrown Exception.TypeError, self := self, engine := e }
    else
      match BUF_LEN_ARG (argAt args 0) with
      | Except.error ex => { completion := Completion.thrown ex, self := self, engine := e }
      | Except.ok bl =>
        match INT_ARG (argAt args 1) with
        | Except.error ex => { completion := Completion.thrown ex, self := self, engine := e }
        | Except.ok timeout =>
          if bl.modus ≠ self.endpoint_type then
            { completion := Completion.thrown Exception.TypeError, self := self, engine := e }
          else
            let made := Transfer.newTransfer self.transfer_type
              self.descriptor.bEndpointAddress bl.buf bl.length timeout (argAt args 2) e
            { completion := Completion.returned Value.undefined, self := self,
              engine := Transfer.submit made.1 made.2 }

/-! ## The lifecycle of a submitted transfer (spec section 4.2) -/

/-- Modelled from the spec: the terminal outcome kinds of a transfer
(transfer.cc, which completes the requests, is absent). -/
inductive OutcomeKind where
  | Completed
  | PartiallyCompleted
  | TimedOut
  | Cancelled
  | Failed
  deriving DecidableEq, Repr

/-- Modelled from the spec: the states `Created`, `Submitted` and the five
terminal states of the state machine of a transfer (transfer.cc is absent). -/
inductive TransferState where
  | Created
  | Submitted
  | Terminal (o : OutcomeKind)
  deriving DecidableEq, Repr

/-- Modelled from the spec: what one invocation of the completion callback
carries (transfer.cc is absent): `(bytesTransferred, outcomeKind, optional
error detail)`. A terminal report of the transport has the same shape: the
byte count and outcome it reports. -/
structure CallbackArgs where
  bytesTransferred : Nat
  outcomeKind : OutcomeKind
  errorDetail : Option Int
  deriving DecidableEq, Repr

/-- Modelled from the spec: a transfer request inside the engine
(transfer.cc is absent): the request, its state, and the invocations of its
callback so far, oldest first. -/
structure TransferRequest where
  transfer : NodeUsb.Transfer
  state : TransferState
  calls : List CallbackArgs
  deriving DecidableEq, Repr

/-- Modelled from the spec: a request as `Endpoint::Transfer` constructs it
(transfer.cc is absent): state `Created`, callback not invoked. -/
def TransferRequest.created (t : NodeUsb.Transfer) : TransferRequest :=
  { transfer := t, state := TransferState.Created, calls := [] }

/-- Modelled from the spec: the transition `Created → Submitted`
(transfer.cc is absent); submission invokes no callback. -/
def TransferRequest.submit (q : TransferRequest) : TransferRequest :=
  match q.state with
  | TransferState.Created => { q with state := TransferState.Submitted }
  | _ => q

/-- Modelled from the spec: the transition into a terminal state
(transfer.cc is absent): on a report of the transport a submitted request
enters the reported terminal state and its callback fires with the reported
byte count and outcome; no other state is left, so a terminal request ignores
further reports. -/
def TransferRequest.report (q : TransferRequest) (rep : CallbackArgs) : TransferRequest :=
  match q.state with
  | TransferState.Submitted =>
    { q with state := TransferState.Terminal rep.outcomeKind, calls := q.calls ++ [rep] }
  | _ => q

/-- Modelled from the spec: the request after the reports `reps` of the
transport, in order (transfer.cc is absent). -/
def TransferRequest.run (q : TransferRequest) (reps : List CallbackArgs) : TransferRequest :=
  reps.foldl TransferRequest.report q

/-- Modelled from the spec: the requests the engine holds right after the
calls recorded in `e` (transfer.cc is absent): each transfer on which `submit`
was called, constructed and then submitted. -/
def TransferEngine.requests (e : TransferEngine) : List TransferRequest :=
  e.submitted.map (fun t => (TransferRequest.created t).submit)

/-! ## The example of spec section 8 -/

/-- The endpoint descriptor of the spec's example: address 0x81 (IN, endpoint
1), attributes 0x02 (bulk), with three extra bytes. -/
def exampleDescriptor : libusb_endpoint_descriptor :=
  { bLength := 7, bDescriptorType := 5, bEndpointAddress := 0x81, bmAttributes := 0x02,
    wMaxPacketSize := 512, bInterval := 0, bRefresh := 0, bSynchAddress := 0,
    extra := [0xAA, 0xBB, 0xCC], extra_length := 3 }

/-- A configuration with one interface, one alternate setting and the example
endpoint as its only endpoint. -/
def exampleConfig : libusb_config_descriptor :=
  { interface := [{ altsetting := [{ endpoint := [exampleDescriptor] }] }] }

/-- A device with the example configuration whose session is not open yet and
opens when asked. -/
def exampleDevice : Device :=
  { config_descriptor := exampleConfig, handle := false, libusb_open_result := 0 }

/-- The example device when the transport refuses to open it
(`LIBUSB_ERROR_ACCESS`, -3). -/
def exampleBusyDevice : Device :=
  { config_descriptor := exampleConfig, handle := false, libusb_open_result := -3 }

/-- The example endpoint, as the constructor builds it. -/
def exampleEndpoint : NodeUsb.Endpoint := Endpoint.Endpoint exampleDevice exampleDescriptor 0

/-- An engine on which nothing was called yet. -/
def emptyEngine : TransferEngine := { constructed := [], submitted := [] }

/-! ## Auxiliary facts -/

/-- Masking with `1 << 7` is non-zero exactly when bit 7 is set. -/
theorem and_bit7_ne_zero (a : Nat) : a &&& (1 <<< 7) ≠ 0 ↔ a.testBit 7 = true := by
  have h : (1 <<< 7 : Nat) = 2 ^ 7 := by decide
  rw [h, Nat.and_two_pow]
  cases a.testBit 7 <;> simp

/-- Masking with 3 keeps the low two bits. -/
theorem three_and_eq_mod (x : Nat) : 3 &&& x = x % 4 := by
  have h := Nat.and_pow_two_sub_one_eq_mod x 2
  rw [Nat.and_comm]
  simpa using h

/-- The loop of `GetExtraData`, started at counter `i` with `i ≤ m` and at
least `m` bytes behind `extra`, returns; it keeps the length of the array and
overwrites exactly the slots from `i` up to `m` with the bytes at the same
positions. -/
theorem GetExtraData_loop_returns (extra : List Nat) (m : Nat) (hm : m ≤ extra.length) :
    ∀ (k i : Nat) (r : List Value), m - i = k → i ≤ m →
      ∃ r', Endpoint.GetExtraData.loop extra m i r = Completion.returned r' ∧
        r'.length = r.length ∧
        ∀ j, r'[j]? = if i ≤ j ∧ j < m ∧ j < r.length then (extra[j]?).map Uint32_New
                      else r[j]? := by
  intro k
  induction k with
  | zero =>
    intro i r hk hi
    have him : ¬ i < m := by omega
    refine ⟨r, ?_, rfl, ?_⟩
    · rw [Endpoint.GetExtraData.loop, if_neg him]
    · intro j
      have : ¬ (i ≤ j ∧ j < m ∧ j < r.length) := by omega
      rw [if_neg this]
  | succ k ih =>
    intro i r hk hi
    have him : i < m := by omega
    have hie : i < extra.length := by omega
    obtain ⟨r', hr', hlen, hget⟩ := ih (i + 1) (r.set i (Uint32_New extra[i])) (by omega) (by omega)
    refine ⟨r', ?_, ?_, ?_⟩
    · rw [Endpoint.GetExtraData.loop, if_pos him, List.getElem?_eq_getElem hie]
      exact hr'
    · rw [hlen, List.length_set]
    · intro j
      rw [hget j, List.length_set]
      by_cases hj : i + 1 ≤ j ∧ j < m ∧ j < r.length
      · have : i ≤ j ∧ j < m ∧ j < r.length := by omega
        rw [if_pos hj, if_pos this]
      · rw [if_neg hj]
        by_cases hij : i = j
        · subst hij
          by_cases hr : i < r.length
          · have : i ≤ i ∧ i < m ∧ i < r.length := by omega
            rw [if_pos this, List.getElem?_set_self hr, List.getElem?_eq_getElem hie]
            rfl
          · have : ¬ (i ≤ i ∧ i < m ∧ i < r.length) := by omega
            rw [if_neg this, List.getElem?_set, if_pos rfl, if_neg hr]
            rw [List.getElem?_eq_none (by omega)]
        · have : ¬ (i ≤ j ∧ j < m ∧ j < r.length) := by omega
          rw [if_neg this, List.getElem?_set_ne hij]

/-- With at least `extra_length` bytes behind `extra`, `GetExtraData` returns
the first `extra_length` of them, each as a number. -/
theorem GetExtraData_eq (self : NodeUsb.Endpoint)
    (h : self.descriptor.extra_length ≤ self.descriptor.extra.length) :
    Endpoint.GetExtraData self =
      Completion.returned
        ((self.descriptor.extra.take self.descriptor.extra_length).map Uint32_New) := by
  obtain ⟨r', hr', hlen, hget⟩ :=
    GetExtraData_loop_returns self.descriptor.extra self.descriptor.extra_length h
      self.descriptor.extra_length 0 (Array_New self.descriptor.extra_length) rfl (Nat.zero_le _)
  unfold Endpoint.GetExtraData
  simp only []
  rw [hr']
  congr 1
  apply List.ext_getElem?
  intro j
  rw [hget j, List.getElem?_map, List.getElem?_take]
  simp only [Array_New, List.length_replicate, Nat.zero_le, true_and, and_self]
  by_cases hj : j < self.descriptor.extra_length
  · rw [if_pos hj, if_pos hj]
  · rw [if_neg hj, if_neg hj, List.getElem?_replicate, if_neg hj]
    rfl

/-! ## Classification (claims C1, C2) -/

/-- C1: for every endpoint address, the direction the `Endpoint` constructor
derives is IN if and only if bit 7 of the address is set, and OUT otherwise;
the derivation is a total function and has no error case. -/
theorem Endpoint_direction_iff_bit7 (dev : Device) (d : libusb_endpoint_descriptor)
    (idx : Nat) :
    ((Endpoint.Endpoint dev d idx).endpoint_type = LIBUSB_ENDPOINT_IN ↔
        d.bEndpointAddress.testBit 7 = true) ∧
    ((Endpoint.Endpoint dev d idx).endpoint_type = LIBUSB_ENDPOINT_OUT ↔
        d.bEndpointAddress.testBit 7 = false) := by
  have hb := and_bit7_ne_zero d.bEndpointAddress
  simp only [Endpoint.Endpoint, LIBUSB_ENDPOINT_IN, LIBUSB_ENDPOINT_OUT]
  by_cases h : d.bEndpointAddress &&& (1 <<< 7) ≠ 0
  · have ht := hb.mp h
    rw [if_pos h, ht]
    decide
  · have ht : d.bEndpointAddress.testBit 7 = false := by
      cases hc : d.bEndpointAddress.testBit 7
      · rfl
      · exact absurd (hb.mpr hc) h
    rw [if_neg h, ht]
    decide

/-- The example of C1: address 0x81 gives IN. -/
theorem exampleEndpoint_is_IN : exampleEndpoint.endpoint_type = LIBUSB_ENDPOINT_IN := by
  decide

/-- C2: for every attributes byte, the transfer kind the `Endpoint` constructor
derives is the kind numbered by the low 2 bits of the byte (0 control, 1
isochronous, 2 bulk, 3 interrupt); so two attributes bytes that agree on their
low 2 bits give the same transfer kind, whatever their upper 6 bits. -/
theorem Endpoint_transfer_type_low_two_bits (dev dev2 : Device)
    (d d2 : libusb_endpoint_descriptor) (idx idx2 : Nat)
    (h : d.bmAttributes % 4 = d2.bmAttributes % 4) :
    (Endpoint.Endpoint dev d idx).transfer_type = d.bmAttributes % 4 ∧
    ((d.bmAttributes % 4 = 0 ∧
        (Endpoint.Endpoint dev d idx).transfer_type = LIBUSB_TRANSFER_TYPE_CONTROL) ∨
      (d.bmAttributes % 4 = 1 ∧
        (Endpoint.Endpoint dev d idx).transfer_type = LIBUSB_TRANSFER_TYPE_ISOCHRONOUS) ∨
      (d.bmAttributes % 4 = 2 ∧
        (Endpoint.Endpoint dev d idx).transfer_type = LIBUSB_TRANSFER_TYPE_BULK) ∨
      (d.bmAttributes % 4 = 3 ∧
        (Endpoint.Endpoint dev d idx).transfer_type = LIBUSB_TRANSFER_TYPE_INTERRUPT)) ∧
    (Endpoint.Endpoint dev d idx).transfer_type =
      (Endpoint.Endpoint dev2 d2 idx2).transfer_type := by
  simp only [Endpoint.Endpoint, three_and_eq_mod, LIBUSB_TRANSFER_TYPE_CONTROL,
    LIBUSB_TRANSFER_TYPE_ISOCHRONOUS, LIBUSB_TRANSFER_TYPE_BULK,
    LIBUSB_TRANSFER_TYPE_INTERRUPT]
  refine ⟨trivial, ?_, h⟩
  omega

/-- Witness of C2: attributes 0x02 and 0xFE agree on their low 2 bits, and both
give bulk. -/
theorem Endpoint_transfer_type_low_two_bits_witness :
    exampleDescriptor.bmAttributes % 4 =
        ({ exampleDescriptor with bmAttributes := 0xFE }).bmAttributes % 4 ∧
    exampleEndpoint.transfer_type = LIBUSB_TRANSFER_TYPE_BULK ∧
    (Endpoint.Endpoint exampleDevice exampleDescriptor 0).transfer_type =
      (Endpoint.Endpoint exampleBusyDevice { exampleDescriptor with bmAttributes := 0xFE }
        5).transfer_type :=
  ⟨by decide, by decide,
    (Endpoint_transfer_type_low_two_bits exampleDevice exampleBusyDevice exampleDescriptor
      { exampleDescriptor with bmAttributes := 0xFE } 0 5 (by decide)).2.2⟩

/-! ## Extra data (claim C5) -/

/-- C5: for every endpoint whose descriptor has (at least) `extra_length` extra
bytes, `GetExtraData` returns, without failing, a sequence whose length is
`extra_length` and whose i-th element is the i-th extra byte for every i below
`extra_length`, in the same order; when `extra_length` is 0 the sequence is
empty. -/
theorem GetExtraData_returns_extra_bytes (self : NodeUsb.Endpoint)
    (h : self.descriptor.extra_length ≤ self.descriptor.extra.length) :
    ∃ r, Endpoint.GetExtraData self = Completion.returned r ∧
      r.length = self.descriptor.extra_length ∧
      (∀ i, i < self.descriptor.extra_length →
        r[i]? = (self.descriptor.extra[i]?).map Value.number) ∧
      (∀ i (hi : i < self.descriptor.extra_length),
        r[i]? = some (Value.number (self.descriptor.extra.get ⟨i, Nat.lt_of_lt_of_le hi h⟩))) ∧
      (self.descriptor.extra_length = 0 → r = []) := by
  refine ⟨_, GetExtraData_eq self h, ?_, ?_, ?_, ?_⟩
  · rw [List.length_map, List.length_take]
    omega
  · intro i hi
    rw [List.getElem?_map, List.getElem?_take, if_pos hi]
    rfl
  · intro i hi
    rw [List.getElem?_map, List.getElem?_take, if_pos hi,
      List.getElem?_eq_getElem (Nat.lt_of_lt_of_le hi h)]
    rfl
  · intro h0
    rw [h0]
    rfl

/-- Witness of C5: the example endpoint has three extra bytes and gets them
back in order; the same endpoint with `extra_length` 0 gets the empty
sequence. -/
theorem GetExtraData_returns_extra_bytes_witness :
    (exampleEndpoint.descriptor.extra_length ≤ exampleEndpoint.descriptor.extra.length ∧
      ∃ r, Endpoint.GetExtraData exampleEndpoint = Completion.returned r ∧ r.length = 3 ∧
        r[0]? = some (Value.number 0xAA) ∧ r[1]? = some (Value.number 0xBB) ∧
        r[2]? = some (Value.number 0xCC)) ∧
    Endpoint.GetExtraData
        (Endpoint.Endpoint exampleDevice { exampleDescriptor with extra := [], extra_length := 0 }
          0) = Completion.returned [] := by
  constructor
  · obtain ⟨r, hr, hlen, hget, -, -⟩ :=
      GetExtraData_returns_extra_bytes exampleEndpoint (by decide)
    exact ⟨by decide, r, hr, hlen, hget 0 (by decide), hget 1 (by decide),
      hget 2 (by decide)⟩
  · obtain ⟨r, hr, -, -, -, h0⟩ :=
      GetExtraData_returns_extra_bytes
        (Endpoint.Endpoint exampleDevice { exampleDescriptor with extra := [], extra_length := 0 }
          0) (by decide)
    rw [hr, h0 rfl]

/-! ## Construction (claims C4, C9) -/

/-- A call of `Endpoint::New` that returns was given exactly a device wrapper
and three numbers below 2^32, and the lookup of the descriptor succeeded; the
returned object is the one built from that descriptor. -/
theorem New_returned_inv (args : List Value) (obj : EndpointObject)
    (h : Endpoint.New args = Completion.returned obj) :
    ∃ dev i j k d,
      args = [Value.object (some dev), Value.number i, Value.number j, Value.number k] ∧
      i < 2 ^ 32 ∧ j < 2 ^ 32 ∧ k < 2 ^ 32 ∧
      endpointAt dev.config_descriptor i j k = some d ∧
      obj =
        { bLength := Value.number d.bLength
          bDescriptorType := Value.number d.bDescriptorType
          bEndpointAddress := Value.number d.bEndpointAddress
          bmAttributes := Value.number d.bmAttributes
          wMaxPacketSize := Value.number d.wMaxPacketSize
          bInterval := Value.number d.bInterval
          bRefresh := Value.number d.bRefresh
          bSynchAddress := Value.number d.bSynchAddress
          extra_length := Value.number d.extra_length
          wrapped := Endpoint.Endpoint dev d k } := by
  unfold Endpoint.New at h
  split at h
  · cases h
  · rename_i hc
    simp only [not_or, Decidable.not_not, Bool.not_eq_true', Bool.not_eq_false] at hc
    obtain ⟨hlen, h0, h1, h2, h3⟩ := hc
    rcases args with _ | ⟨a, _ | ⟨b, _ | ⟨c, _ | ⟨e, _ | ⟨f, t⟩⟩⟩⟩⟩ <;>
      simp only [List.length_nil, List.length_cons] at hlen <;> try omega
    simp only [argAt, List.getD_cons_zero, List.getD_cons_succ] at h h0 h1 h2 h3
    cases a <;> simp only [Value.Unwrap] at h <;> try cases h
    rename_i w
    cases w with
    | none => simp at h
    | some dev =>
      cases b <;> simp only [Value.IsUint32] at h1 <;> try cases h1
      cases c <;> simp only [Value.IsUint32] at h2 <;> try cases h2
      cases e <;> simp only [Value.IsUint32] at h3 <;> try cases h3
      rename_i i j k
      have hi : i < 2 ^ 32 := of_decide_eq_true h1
      have hj : j < 2 ^ 32 := of_decide_eq_true h2
      have hk : k < 2 ^ 32 := of_decide_eq_true h3
      simp only [Value.Uint32Value, Nat.mod_eq_of_lt hi, Nat.mod_eq_of_lt hj,
        Nat.mod_eq_of_lt hk] at h
      cases hd : endpointAt dev.config_descriptor i j k with
      | none => rw [hd] at h; cases h
      | some d =>
        rw [hd] at h
        simp only [Completion.returned.injEq] at h
        exact ⟨dev, i, j, k, d, rfl, hi, hj, hk, hd, h.symm⟩

/-- A well-formed call of `Endpoint::New` (a device wrapper and three numbers
below 2^32) goes straight to the lookup, without any test of the indices:
it returns the object of the descriptor found, and is an invalid read when a
subscript is outside its array. -/
theorem New_wellformed_eq (dev : Device) (i j k : Nat) (hi : i < 2 ^ 32) (hj : j < 2 ^ 32)
    (hk : k < 2 ^ 32) :
    Endpoint.New [Value.object (some dev), Value.number i, Value.number j, Value.number k] =
      match endpointAt dev.config_descriptor i j k with
      | none => Completion.invalidRead
      | some d =>
        Completion.returned
          { bLength := Value.number d.bLength
            bDescriptorType := Value.number d.bDescriptorType
            bEndpointAddress := Value.number d.bEndpointAddress
            bmAttributes := Value.number d.bmAttributes
            wMaxPacketSize := Value.number d.wMaxPacketSize
            bInterval := Value.number d.bInterval
            bRefresh := Value.number d.bRefresh
            bSynchAddress := Value.number d.bSynchAddress
            extra_length := Value.number d.extra_length
            wrapped := Endpoint.Endpoint dev d k } := by
  simp only [Endpoint.New, argAt, List.getD_cons_zero, List.getD_cons_succ, Value.IsObject,
    Value.IsUint32, Value.Unwrap, Value.Uint32Value, Nat.mod_eq_of_lt hi, Nat.mod_eq_of_lt hj,
    Nat.mod_eq_of_lt hk, decide_eq_true hi, decide_eq_true hj, decide_eq_true hk,
    List.length_cons, List.length_nil]
  rw [if_neg (by simp)]
  cases endpointAt dev.config_descriptor i j k <;> rfl

/-- The lookup fails exactly when one of the three subscripts is outside its
array. -/
theorem endpointAt_eq_none_iff (c : libusb_config_descriptor) (i j k : Nat) :
    endpointAt c i j k = none ↔
      (c.interface.length ≤ i ∨
        ∃ itf, c.interface[i]? = some itf ∧
          (itf.altsetting.length ≤ j ∨
            ∃ alt, itf.altsetting[j]? = some alt ∧ alt.endpoint.length ≤ k)) := by
  unfold endpointAt
  cases hi : c.interface[i]? with
  | none =>
    simp only [true_iff]
    exact Or.inl (List.getElem?_eq_none_iff.mp hi)
  | some itf =>
    have hlt : ¬ c.interface.length ≤ i := by
      intro hle
      rw [List.getElem?_eq_none hle] at hi
      cases hi
    simp only []
    cases hj : itf.altsetting[j]? with
    | none =>
      simp only [true_iff]
      exact Or.inr ⟨itf, rfl, Or.inl (List.getElem?_eq_none_iff.mp hj)⟩
    | some alt =>
      have hlt2 : ¬ itf.altsetting.length ≤ j := by
        intro hle
        rw [List.getElem?_eq_none hle] at hj
        cases hj
      simp only [List.getElem?_eq_none_iff]
      constructor
      · intro hk
        exact Or.inr ⟨itf, rfl, Or.inr ⟨alt, hj, hk⟩⟩
      · rintro (h | ⟨itf2, hitf, h | ⟨alt2, halt, hk⟩⟩)
        · exact absurd h hlt
        · cases hitf
          exact absurd h hlt2
        · cases hitf
          rw [hj] at halt
          cases halt
          exact hk

/-- The lookup succeeds exactly when it walks `interface[i]`, `altsetting[j]`
and `endpoint[k]` inside their arrays. -/
theorem endpointAt_eq_some_iff (c : libusb_config_descriptor) (i j k : Nat)
    (d : libusb_endpoint_descriptor) :
    endpointAt c i j k = some d ↔
      ∃ itf alt, c.interface[i]? = some itf ∧ itf.altsetting[j]? = some alt ∧
        alt.endpoint[k]? = some d := by
  unfold endpointAt
  cases hi : c.interface[i]? with
  | none => simp
  | some itf =>
    simp only []
    cases hj : itf.altsetting[j]? with
    | none => simp [hj]
    | some alt => simp [hj]

/-- The only error `Endpoint::New` throws is the malformed-call error. -/
theorem New_failure (args : List Value) :
    (Endpoint.New args).failure = none ∨
      (Endpoint.New args).failure = some ErrorKind.InvalidArgument := by
  unfold Endpoint.New
  split
  · exact Or.inr rfl
  · cases (argAt args 0).Unwrap with
    | none => exact Or.inl rfl
    | some dev =>
      simp only []
      cases endpointAt dev.config_descriptor (argAt args 1).Uint32Value
        (argAt args 2).Uint32Value (argAt args 3).Uint32Value <;> exact Or.inl rfl

/-- C9: for every successful construction of an `Endpoint`, the call was given
a device and three indices that are in range, and the resulting object exposes
the eight scalar fields and `extra_length` of the descriptor at
`interface[i].altsetting[j].endpoint[k]`, each equal to the descriptor's field;
its stored direction and transfer kind, as the two getters return them, are
those derived from that descriptor's address and attributes. -/
theorem New_exposes_descriptor_fields (args : List Value) (obj : EndpointObject)
    (h : Endpoint.New args = Completion.returned obj) :
    ∃ dev i j k itf alt d,
      args = [Value.object (some dev), Value.number i, Value.number j, Value.number k] ∧
      dev.config_descriptor.interface[i]? = some itf ∧ itf.altsetting[j]? = some alt ∧
      alt.endpoint[k]? = some d ∧
      obj.bLength = Value.number d.bLength ∧
      obj.bDescriptorType = Value.number d.bDescriptorType ∧
      obj.bEndpointAddress = Value.number d.bEndpointAddress ∧
      obj.bmAttributes = Value.number d.bmAttributes ∧
      obj.wMaxPacketSize = Value.number d.wMaxPacketSize ∧
      obj.bInterval = Value.number d.bInterval ∧
      obj.bRefresh = Value.number d.bRefresh ∧
      obj.bSynchAddress = Value.number d.bSynchAddress ∧
      obj.extra_length = Value.number d.extra_length ∧
      obj.wrapped.descriptor = d ∧
      Endpoint.EndpointTypeGetter obj.wrapped =
        Value.number (if d.bEndpointAddress.testBit 7 = true then LIBUSB_ENDPOINT_IN
                      else LIBUSB_ENDPOINT_OUT) ∧
      Endpoint.TransferTypeGetter obj.wrapped = Value.number (d.bmAttributes % 4) := by
  obtain ⟨dev, i, j, k, d, hargs, -, -, -, hd, hobj⟩ := New_returned_inv args obj h
  obtain ⟨itf, alt, h1, h2, h3⟩ := (endpointAt_eq_some_iff _ _ _ _ _).mp hd
  refine ⟨dev, i, j, k, itf, alt, d, hargs, h1, h2, h3, ?_⟩
  subst hobj
  refine ⟨rfl, rfl, rfl, rfl, rfl, rfl, rfl, rfl, rfl, rfl, ?_, ?_⟩
  · simp only [Endpoint.EndpointTypeGetter, Uint32_New, Endpoint.Endpoint]
    by_cases hb : d.bEndpointAddress.testBit 7 = true
    · rw [if_pos ((and_bit7_ne_zero _).mpr hb), if_pos hb]
    · rw [if_neg (fun hc => hb ((and_bit7_ne_zero _).mp hc)), if_neg hb]
  · simp only [Endpoint.TransferTypeGetter, Uint32_New, Endpoint.Endpoint, three_and_eq_mod]

/-- Witness of C9: the example endpoint, constructed from the example device
and the indices 0, 0, 0. -/
theorem New_exposes_descriptor_fields_witness :
    ∃ obj,
      Endpoint.New [Value.object (some exampleDevice), Value.number 0, Value.number 0,
        Value.number 0] = Completion.returned obj ∧
      obj.bEndpointAddress = Value.number 0x81 ∧
      Endpoint.EndpointTypeGetter obj.wrapped = Value.number LIBUSB_ENDPOINT_IN ∧
      Endpoint.TransferTypeGetter obj.wrapped = Value.number LIBUSB_TRANSFER_TYPE_BULK := by
  have hnew := New_wellformed_eq exampleDevice 0 0 0 (by decide) (by decide) (by decide)
  have hat : endpointAt exampleDevice.config_descriptor 0 0 0 = some exampleDescriptor := rfl
  rw [hat] at hnew
  refine ⟨_, hnew, ?_⟩
  obtain ⟨dev, i, j, k, itf, alt, d, -, -, -, -, -, -, ha, -, -, -, -, -, -, hdesc, hdir,
    hkind⟩ := New_exposes_descriptor_fields _ _ hnew
  subst hdesc
  exact ⟨ha, hdir, hkind⟩

/-- Counterexample to C4: in the example configuration every array has length
1; with the interface index 1 (the array length), the alternate-setting index
2 (length + 1) or the endpoint index 4294967295, construction throws nothing,
so it does not fail with `IndexOutOfRange`, and the lookup reads outside the
arrays. -/
theorem New_out_of_range_reads_outside :
    exampleConfig.interface.length = 1 ∧
    Endpoint.New [Value.object (some exampleDevice), Value.number 1, Value.number 0,
        Value.number 0] = Completion.invalidRead ∧
    Endpoint.New [Value.object (some exampleDevice), Value.number 0, Value.number 2,
        Value.number 0] = Completion.invalidRead ∧
    Endpoint.New [Value.object (some exampleDevice), Value.number 0, Value.number 0,
        Value.number 4294967295] = Completion.invalidRead ∧
    (Endpoint.New [Value.object (some exampleDevice), Value.number 1, Value.number 0,
        Value.number 0]).failure ≠ some ErrorKind.IndexOutOfRange := by
  refine ⟨rfl, ?_, ?_, ?_, ?_⟩
  · rw [New_wellformed_eq _ _ _ _ (by decide) (by decide) (by decide)]; rfl
  · rw [New_wellformed_eq _ _ _ _ (by decide) (by decide) (by decide)]; rfl
  · rw [New_wellformed_eq _ _ _ _ (by decide) (by decide) (by decide)]; rfl
  · rw [New_wellformed_eq _ _ _ _ (by decide) (by decide) (by decide)]
    intro hc
    cases hc

/-- C4, amended: for every device configuration and every triple of indices
(numbers below 2^32), `Endpoint::New` does the lookup
`interface[i].altsetting[j].endpoint[k]` without a bounds check and throws
nothing: when the three subscripts are inside their arrays it returns the
endpoint of the descriptor found there, and when one of them is outside its
array the lookup is a read outside the arrays. No call of `Endpoint::New`
fails with `IndexOutOfRange`: the only error it throws is `InvalidArgument`. -/
theorem New_lookup_unchecked (dev : Device) (i j k : Nat) (hi : i < 2 ^ 32) (hj : j < 2 ^ 32)
    (hk : k < 2 ^ 32) :
    (Endpoint.New [Value.object (some dev), Value.number i, Value.number j,
        Value.number k]).failure = none ∧
    (∀ itf alt d, dev.config_descriptor.interface[i]? = some itf →
      itf.altsetting[j]? = some alt → alt.endpoint[k]? = some d →
      ∃ obj, Endpoint.New [Value.object (some dev), Value.number i, Value.number j,
          Value.number k] = Completion.returned obj ∧
        obj.wrapped = Endpoint.Endpoint dev d k) ∧
    ((dev.config_descriptor.interface.length ≤ i ∨
        ∃ itf, dev.config_descriptor.interface[i]? = some itf ∧
          (itf.altsetting.length ≤ j ∨
            ∃ alt, itf.altsetting[j]? = some alt ∧ alt.endpoint.length ≤ k)) →
      Endpoint.New [Value.object (some dev), Value.number i, Value.number j,
          Value.number k] = Completion.invalidRead) ∧
    (∀ args, (Endpoint.New args).failure = none ∨
      (Endpoint.New args).failure = some ErrorKind.InvalidArgument) ∧
    (∀ args, (Endpoint.New args).failure ≠ some ErrorKind.IndexOutOfRange) := by
  have hnew := New_wellformed_eq dev i j k hi hj hk
  refine ⟨?_, ?_, ?_, New_failure, ?_⟩
  · rw [hnew]
    cases endpointAt dev.config_descriptor i j k <;> rfl
  · intro itf alt d h1 h2 h3
    rw [(endpointAt_eq_some_iff _ _ _ _ _).mpr ⟨itf, alt, h1, h2, h3⟩] at hnew
    exact ⟨_, hnew, rfl⟩
  · intro hout
    rw [(endpointAt_eq_none_iff _ _ _ _).mpr hout] at hnew
    exact hnew
  · intro args hc
    rcases New_failure args with h | h <;> rw [h] at hc <;> cases hc

/-- Witness of C4, amended: the example device at the indices 0, 0, 0. -/
theorem New_lookup_unchecked_witness :
    (0 : Nat) < 2 ^ 32 ∧
    ∃ obj, Endpoint.New [Value.object (some exampleDevice), Value.number 0, Value.number 0,
        Value.number 0] = Completion.returned obj ∧ obj.wrapped = exampleEndpoint :=
  ⟨by decide,
    (New_lookup_unchecked exampleDevice 0 0 0 (by decide) (by decide) (by decide)).2.1
      { altsetting := [{ endpoint := [exampleDescriptor] }] }
      { endpoint := [exampleDescriptor] } exampleDescriptor rfl rfl rfl⟩

/-! ## Transfer submission (claims C3, C6, C7, C8) -/

/-- When the session is open, or opens when asked, `openHandle` reports
success and `CHECK_USB` lets `Transfer` go on. -/
theorem CHECK_USB_openHandle_of_session (d : Device)
    (hs : d.handle = true ∨ LIBUSB_SUCCESS ≤ d.libusb_open_result) :
    CHECK_USB d.openHandle.1 = none := by
  have h0 : CHECK_USB LIBUSB_SUCCESS = none := by decide
  unfold Device.openHandle
  by_cases hh : d.handle = true
  · rw [if_pos hh]
    exact h0
  · have hle : LIBUSB_SUCCESS ≤ d.libusb_open_result := hs.resolve_left hh
    have hlt : ¬ d.libusb_open_result < LIBUSB_SUCCESS := not_lt.mpr hle
    rw [if_neg hh, if_neg hlt]
    exact h0

/-- The macro `BUF_LEN_ARG` throws nothing but the malformed-call error. -/
theorem BUF_LEN_ARG_error (v : Value) (ex : Exception)
    (h : BUF_LEN_ARG v = Except.error ex) : ex = Exception.TypeError := by
  unfold BUF_LEN_ARG at h
  split at h
  · cases h
  · split at h
    · cases h
    · cases h; rfl
  · cases h; rfl

/-- The macro `INT_ARG` throws nothing but the malformed-call error. -/
theorem INT_ARG_error (v : Value) (ex : Exception)
    (h : INT_ARG v = Except.error ex) : ex = Exception.TypeError := by
  unfold INT_ARG at h
  split at h
  · cases h
  · cases h; rfl

/-- The direction `BUF_LEN_ARG` derives: OUT from a buffer, IN from a number. -/
theorem BUF_LEN_ARG_modus (v : Value) (bl : BufLen) (h : BUF_LEN_ARG v = Except.ok bl) :
    ((∃ data, v = Value.buffer data) ∧ bl.modus = LIBUSB_ENDPOINT_OUT) ∨
      ((∃ n, v = Value.number n) ∧ bl.modus = LIBUSB_ENDPOINT_IN) := by
  unfold BUF_LEN_ARG at h
  split at h
  · cases h
    exact Or.inl ⟨⟨_, rfl⟩, rfl⟩
  · split at h
    · cases h
      exact Or.inr ⟨⟨_, rfl⟩, rfl⟩
    · cases h
  · cases h

/-- C3: for every endpoint and every call of `transfer` whose device session is
open or opens successfully, if the direction implied by the caller's buffer
role (OUT for a source buffer, IN for a requested byte count) differs from the
endpoint's direction, the call fails synchronously with `InvalidArgument`, and
no transfer request is constructed or submitted. -/
theorem Transfer_wrong_direction_rejected (self : NodeUsb.Endpoint) (args : List Value)
    (e : TransferEngine)
    (hs : self.device.handle = true ∨ LIBUSB_SUCCESS ≤ self.device.libusb_open_result)
    (hdir : ((∃ data, argAt args 0 = Value.buffer data) ∧
              self.endpoint_type ≠ LIBUSB_ENDPOINT_OUT) ∨
            ((∃ n, argAt args 0 = Value.number n) ∧
              self.endpoint_type ≠ LIBUSB_ENDPOINT_IN)) :
    (Endpoint.Transfer self args e).completion = Completion.thrown Exception.TypeError ∧
    (Endpoint.Transfer self args e).completion.failure = some ErrorKind.InvalidArgument ∧
    (Endpoint.Transfer self args e).engine = e := by
  have hc := CHECK_USB_openHandle_of_session self.device hs
  unfold Endpoint.Transfer
  simp only [hc]
  split
  · exact ⟨rfl, rfl, rfl⟩
  · cases hb : BUF_LEN_ARG (argAt args 0) with
    | error ex =>
      cases BUF_LEN_ARG_error _ _ hb
      exact ⟨rfl, rfl, rfl⟩
    | ok bl =>
      simp only []
      cases ht : INT_ARG (argAt args 1) with
      | error ex =>
        cases INT_ARG_error _ _ ht
        exact ⟨rfl, rfl, rfl⟩
      | ok timeout =>
        simp only []
        have hne : bl.modus ≠ self.endpoint_type := by
          intro heq
          rcases BUF_LEN_ARG_modus _ _ hb with ⟨⟨data, hv⟩, hm⟩ | ⟨⟨n, hv⟩, hm⟩
          · rcases hdir with ⟨-, hd⟩ | ⟨⟨n, hv2⟩, -⟩
            · exact hd (heq.symm.trans hm)
            · rw [hv] at hv2; cases hv2
          · rcases hdir with ⟨⟨data, hv2⟩, -⟩ | ⟨-, hd⟩
            · rw [hv] at hv2; cases hv2
            · exact hd (heq.symm.trans hm)
        rw [if_pos hne]
        exact ⟨rfl, rfl, rfl⟩

/-- Witness of C3: the example endpoint (address 0x81, IN) given a source
buffer, with a timeout and a callback. -/
theorem Transfer_wrong_direction_rejected_witness :
    exampleEndpoint.endpoint_type ≠ LIBUSB_ENDPOINT_OUT ∧
    (Endpoint.Transfer exampleEndpoint
        [Value.buffer [1, 2, 3], Value.number 1000, Value.function 0]
        emptyEngine).completion.failure = some ErrorKind.InvalidArgument ∧
    (Endpoint.Transfer exampleEndpoint
        [Value.buffer [1, 2, 3], Value.number 1000, Value.function 0]
        emptyEngine).engine = emptyEngine :=
  ⟨by decide,
    (Transfer_wrong_direction_rejected exampleEndpoint
      [Value.buffer [1, 2, 3], Value.number 1000, Value.function 0] emptyEngine
      (Or.inr (by decide)) (Or.inl ⟨⟨[1, 2, 3], rfl⟩, by decide⟩)).2⟩

/-- C6: for every endpoint and every argument list passed to `transfer`, if
the parent device has no open session and opening it fails, `transfer` fails
with `DeviceError` carrying the device's error, and no transfer request is
constructed or submitted. -/
theorem Transfer_open_failure_propagated (self : NodeUsb.Endpoint) (args : List Value)
    (e : TransferEngine) (hclosed : self.device.handle = false)
    (hfail : self.device.libusb_open_result < LIBUSB_SUCCESS) :
    (Endpoint.Transfer self args e).completion =
      Completion.thrown (Exception.UsbError self.device.libusb_open_result) ∧
    (Endpoint.Transfer self args e).completion.failure = some ErrorKind.DeviceError ∧
    (Endpoint.Transfer self args e).engine = e := by
  have ho : self.device.openHandle = (self.device.libusb_open_result, self.device) := by
    unfold Device.openHandle
    rw [hclosed, if_neg (by decide), if_pos hfail]
  have hc : CHECK_USB self.device.libusb_open_result =
      some (Exception.UsbError self.device.libusb_open_result) := by
    unfold CHECK_USB
    rw [if_pos hfail]
  have hT : Endpoint.Transfer self args e =
      { completion := Completion.thrown (Exception.UsbError self.device.libusb_open_result)
        self := { self with device := self.device }
        engine := e } := by
    unfold Endpoint.Transfer
    simp only [ho, hc]
  rw [hT]
  exact ⟨rfl, rfl, rfl⟩

/-- Witness of C6: the example endpoint on a device the transport refuses to
open (error -3), called with well-formed arguments. -/
theorem Transfer_open_failure_propagated_witness :
    exampleBusyDevice.handle = false ∧
    (Endpoint.Transfer (Endpoint.Endpoint exampleBusyDevice exampleDescriptor 0)
        [Value.number 512, Value.number 1000, Value.function 0] emptyEngine).completion =
      Completion.thrown (Exception.UsbError (-3)) ∧
    (Endpoint.Transfer (Endpoint.Endpoint exampleBusyDevice exampleDescriptor 0)
        [Value.number 512, Value.number 1000, Value.function 0] emptyEngine).engine =
      emptyEngine :=
  ⟨rfl,
    (Transfer_open_failure_propagated (Endpoint.Endpoint exampleBusyDevice exampleDescriptor 0)
      [Value.number 512, Value.number 1000, Value.function 0] emptyEngine rfl
      (by decide)).1,
    (Transfer_open_failure_propagated (Endpoint.Endpoint exampleBusyDevice exampleDescriptor 0)
      [Value.number 512, Value.number 1000, Value.function 0] emptyEngine rfl
      (by decide)).2.2⟩

/-- C7: for every endpoint and every call of `transfer` that passes all checks
(session open or opening, at least three arguments with a function as the
third, a valid buffer or size and a valid timeout, matching direction), exactly
one transfer request is constructed and that request is submitted; it carries
the endpoint's stored transfer kind, the descriptor's endpoint address, and the
buffer, length, timeout and callback taken from the arguments; the call
returns without error. -/
theorem Transfer_submits_one_request (self : NodeUsb.Endpoint) (args : List Value)
    (e : TransferEngine) (bl : BufLen) (timeout : Nat)
    (hs : self.device.handle = true ∨ LIBUSB_SUCCESS ≤ self.device.libusb_open_result)
    (hlen : 3 ≤ args.length) (hfun : (argAt args 2).IsFunction = true)
    (hbuf : BUF_LEN_ARG (argAt args 0) = Except.ok bl)
    (htime : INT_ARG (argAt args 1) = Except.ok timeout)
    (hdir : bl.modus = self.endpoint_type) :
    (Endpoint.Transfer self args e).completion = Completion.returned Value.undefined ∧
    (Endpoint.Transfer self args e).engine.constructed =
      e.constructed ++
        [{ transfer_type := self.transfer_type
           bEndpointAddress := self.descriptor.bEndpointAddress
           buf := bl.buf, length := bl.length, timeout := timeout
           callback := argAt args 2 }] ∧
    (Endpoint.Transfer self args e).engine.submitted =
      e.submitted ++
        [{ transfer_type := self.transfer_type
           bEndpointAddress := self.descriptor.bEndpointAddress
           buf := bl.buf, length := bl.length, timeout := timeout
           callback := argAt args 2 }] ∧
    (((∃ data, argAt args 0 = Value.buffer data ∧ bl.buf = TransferBuffer.source data ∧
          bl.length = data.length) ∨
        (∃ n, argAt args 0 = Value.number n ∧ bl.buf = TransferBuffer.destination n ∧
          bl.length = n)) ∧
      argAt args 1 = Value.number timeout) := by
  have hc := CHECK_USB_openHandle_of_session self.device hs
  have hg : ¬ (args.length < 3 ∨ (!(argAt args 2).IsFunction) = true) := by
    rw [hfun]
    simp
    omega
  refine ⟨?_, ?_, ?_, ?_, ?_⟩
  · unfold Endpoint.Transfer
    simp only [hc, if_neg hg, hbuf, htime, hdir, ne_eq, not_true_eq_false, if_false]
  · unfold Endpoint.Transfer
    simp only [hc, if_neg hg, hbuf, htime, hdir, ne_eq, not_true_eq_false, if_false]
    rfl
  · unfold Endpoint.Transfer
    simp only [hc, if_neg hg, hbuf, htime, hdir, ne_eq, not_true_eq_false, if_false]
    rfl
  · unfold BUF_LEN_ARG at hbuf
    split at hbuf
    · cases hbuf
      exact Or.inl ⟨_, by assumption, rfl, rfl⟩
    · split at hbuf
      · cases hbuf
        exact Or.inr ⟨_, by assumption, rfl, rfl⟩
      · cases hbuf
    · cases hbuf
  · unfold INT_ARG at htime
    split at htime
    · rename_i hu
      cases htime
      cases hv : argAt args 1 <;> rw [hv] at hu <;> simp only [Value.IsUint32] at hu <;>
        try cases hu
      rename_i n
      have hn : n < 2 ^ 32 := of_decide_eq_true hu
      simp only [Value.Uint32Value, Nat.mod_eq_of_lt hn]
    · cases htime

/-- Witness of C7: the example endpoint (IN, bulk) asked for 512 bytes with
timeout 1000 and a callback: one request, with those values, is constructed
and submitted. -/
theorem Transfer_submits_one_request_witness :
    (Endpoint.Transfer exampleEndpoint
        [Value.number 512, Value.number 1000, Value.function 0] emptyEngine).completion =
      Completion.returned Value.undefined ∧
    (Endpoint.Transfer exampleEndpoint
        [Value.number 512, Value.number 1000, Value.function 0] emptyEngine).engine.submitted =
      [{ transfer_type := LIBUSB_TRANSFER_TYPE_BULK, bEndpointAddress := 0x81,
         buf := TransferBuffer.destination 512, length := 512, timeout := 1000,
         callback := Value.function 0 }] :=
  ⟨(Transfer_submits_one_request exampleEndpoint
      [Value.number 512, Value.number 1000, Value.function 0] emptyEngine
      { modus := LIBUSB_ENDPOINT_IN, buf := TransferBuffer.destination 512, length := 512 } 1000
      (Or.inr (by decide)) (by decide) rfl rfl rfl rfl).1,
    (Transfer_submits_one_request exampleEndpoint
      [Value.number 512, Value.number 1000, Value.function 0] emptyEngine
      { modus := LIBUSB_ENDPOINT_IN, buf := TransferBuffer.destination 512, length := 512 } 1000
      (Or.inr (by decide)) (by decide) rfl rfl rfl rfl).2.2.1⟩

/-- C8: for every call of `transfer` whose device session is open or opens
successfully, if fewer than three arguments are given or the third argument is
not a function, the call fails with `InvalidArgument` and no transfer request
is constructed or submitted, whatever the buffer and timeout arguments are. -/
theorem Transfer_missing_callback_rejected (self : NodeUsb.Endpoint) (args : List Value)
    (e : TransferEngine)
    (hs : self.device.handle = true ∨ LIBUSB_SUCCESS ≤ self.device.libusb_open_result)
    (hbad : args.length < 3 ∨ (argAt args 2).IsFunction = false) :
    (Endpoint.Transfer self args e).completion = Completion.thrown Exception.TypeError ∧
    (Endpoint.Transfer self args e).completion.failure = some ErrorKind.InvalidArgument ∧
    (Endpoint.Transfer self args e).engine = e := by
  have hc := CHECK_USB_openHandle_of_session self.device hs
  have hg : args.length < 3 ∨ (!(argAt args 2).IsFunction) = true := by
    rcases hbad with h | h
    · exact Or.inl h
    · exact Or.inr (by rw [h]; rfl)
  have hT : Endpoint.Transfer self args e =
      { completion := Completion.thrown Exception.TypeError
        self := { self with device := self.device.openHandle.2 }
        engine := e } := by
    unfold Endpoint.Transfer
    simp only [hc, if_pos hg]
  rw [hT]
  exact ⟨rfl, rfl, rfl⟩

/-- Witness of C8: the example endpoint called with a valid size and timeout
but no callback. -/
theorem Transfer_missing_callback_rejected_witness :
    (Endpoint.Transfer exampleEndpoint [Value.number 512, Value.number 1000]
        emptyEngine).completion.failure = some ErrorKind.InvalidArgument ∧
    (Endpoint.Transfer exampleEndpoint [Value.number 512, Value.number 1000]
        emptyEngine).engine = emptyEngine :=
  (Transfer_missing_callback_rejected exampleEndpoint [Value.number 512, Value.number 1000]
    emptyEngine (Or.inr (by decide)) (Or.inl (by decide))).2

/-! ## Completion (claim C10) -/

/-- A request that is not in state `Submitted` ignores every report. -/
theorem TransferRequest.run_of_not_submitted (reps : List CallbackArgs) :
    ∀ q : TransferRequest, q.state ≠ TransferState.Submitted → q.run reps = q := by
  induction reps with
  | nil => intro q _; rfl
  | cons rep reps ih =>
    intro q hq
    have hrep : q.report rep = q := by
      unfold TransferRequest.report
      cases hst : q.state with
      | Created => rfl
      | Submitted => exact absurd hst hq
      | Terminal o => rfl
    show TransferRequest.run (q.report rep) reps = q
    rw [hrep]
    exact ih q hq

/-- A submitted request enters the terminal state of the first report, fires
its callback with that report, and ignores the later ones. -/
theorem TransferRequest.run_of_submitted (q : TransferRequest) (rep : CallbackArgs)
    (reps : List CallbackArgs) (hq : q.state = TransferState.Submitted) :
    q.run (rep :: reps) =
      { q with state := TransferState.Terminal rep.outcomeKind, calls := q.calls ++ [rep] } := by
  have hrep : q.report rep =
      { q with state := TransferState.Terminal rep.outcomeKind, calls := q.calls ++ [rep] } := by
    unfold TransferRequest.report
    rw [hq]
  show TransferRequest.run (q.report rep) reps = _
  rw [hrep]
  exact TransferRequest.run_of_not_submitted reps _ (by intro h; cases h)

/-- C10: every transfer request submitted by `transfer` is in state `Submitted`
with its callback not invoked (the callback is never invoked synchronously from
`transfer` itself); once the transport reports, whatever further reports
follow, the callback has fired exactly once, carrying the byte count and
outcome of the first report: a successful transfer's callback carries the
number of bytes the transport reports as transferred, and a timed-out
transfer's callback carries outcome `TimedOut` and the partial count reported
at timeout. -/
theorem Transfer_callback_fires_once (self : NodeUsb.Endpoint) (args : List Value)
    (e : TransferEngine) (q : TransferRequest) (rep : CallbackArgs) (reps : List CallbackArgs)
    (hq : q ∈ (Endpoint.Transfer self args e).engine.requests) :
    q.state = TransferState.Submitted ∧ q.calls = [] ∧
    (q.run (rep :: reps)).calls = [rep] ∧
    (q.run (rep :: reps)).state = TransferState.Terminal rep.outcomeKind ∧
    (q.run (rep :: reps)).calls.length = 1 := by
  unfold TransferEngine.requests at hq
  obtain ⟨t, -, rfl⟩ := List.mem_map.mp hq
  have hst : ((TransferRequest.created t).submit).state = TransferState.Submitted := rfl
  rw [TransferRequest.run_of_submitted _ rep reps hst]
  exact ⟨rfl, rfl, rfl, rfl, rfl⟩

/-- Witness of C10: the example endpoint asked for 512 bytes with timeout 1000;
the transport reports 512 bytes transferred, and a stray later report: the
callback fired once with `(512, Completed, none)`. In the same call with a
transport that reports a timeout after 100 bytes, the callback fired once with
`(100, TimedOut, none)`. -/
theorem Transfer_callback_fires_once_witness :
    ∃ q, q ∈ (Endpoint.Transfer exampleEndpoint
          [Value.number 512, Value.number 1000, Value.function 0] emptyEngine).engine.requests ∧
      q.calls = [] ∧
      (q.run [{ bytesTransferred := 512, outcomeKind := OutcomeKind.Completed,
                errorDetail := none },
              { bytesTransferred := 0, outcomeKind := OutcomeKind.Failed,
                errorDetail := some (-1) }]).calls =
        [{ bytesTransferred := 512, outcomeKind := OutcomeKind.Completed,
           errorDetail := none }] ∧
      (q.run [{ bytesTransferred := 100, outcomeKind := OutcomeKind.TimedOut,
                errorDetail := none }]).calls =
        [{ bytesTransferred := 100, outcomeKind := OutcomeKind.TimedOut,
           errorDetail := none }] := by
  have hmem : (TransferRequest.created
        { transfer_type := LIBUSB_TRANSFER_TYPE_BULK, bEndpointAddress := 0x81,
          buf := TransferBuffer.destination 512, length := 512, timeout := 1000,
          callback := Value.function 0 }).submit ∈
      (Endpoint.Transfer exampleEndpoint
          [Value.number 512, Value.number 1000, Value.function 0] emptyEngine).engine.requests :=
    List.mem_singleton.mpr rfl
  exact ⟨_, hmem,
    (Transfer_callback_fires_once exampleEndpoint _ emptyEngine _
      { bytesTransferred := 512, outcomeKind := OutcomeKind.Completed, errorDetail := none }
      [] hmem).2.1,
    (Transfer_callback_fires_once exampleEndpoint _ emptyEngine _
      { bytesTransferred := 512, outcomeKind := OutcomeKind.Completed, errorDetail := none }
      [{ bytesTransferred := 0, outcomeKind := OutcomeKind.Failed, errorDetail := some (-1) }]
      hmem).2.2.1,
    (Transfer_callback_fires_once exampleEndpoint _ emptyEngine _
      { bytesTransferred := 100, outcomeKind := OutcomeKind.TimedOut, errorDetail := none }
      [] hmem).2.2.1⟩

end NodeUsb
